import Mathlib

/-!
Verification of the s1o on-disk spatially-indexed dataset library.

This file gives a shallow embedding, in Lean 4, of the parts of the s1o
source that the verified properties are about:

* src/dataset.hpp       : the dataset facade (alignment, slot arithmetic,
                          header management, the open constructor and its
                          integrity cross-check, read/push element,
                          find_element, unlink)
* src/metadata.hpp      : the on-disk row layout
* src/helpers/mapped_file_helper.hpp : the resize-retry loader.

Machine integers are modelled as natural numbers; the source arithmetic is
reproduced operation by operation (Nat division and modulo coincide with
the C++ unsigned operations on the value ranges exercised here, and every
place where the source would divide or take a remainder by zero is made
explicit as a distinguished undefined-behaviour outcome instead of using
the Lean convention for division by zero).  Fallible code returns Except.
File contents are modelled structurally: the meta file as its header data
plus the list of stored rows, the data file by its byte size, since the
properties are about sizes, offsets and the values of written fields.
-/

namespace S1O

/-! ## Alignment (src/dataset.hpp, align64) -/

/-- Embeds dataset::align64: `size == 0 ? 64 : (((size-1) / 64) + 1) * 64`. -/
def align64 (size : Nat) : Nat :=
  if size = 0 then 64 else ((size - 1) / 64 + 1) * 64

/-- Embeds dataset::compute_data_file_size: the sum of the aligned data
sizes of the metadata sequence, multiplied by the number of slots. -/
def compute_data_file_size (sizes : List Nat) (num_slots : Nat) : Nat :=
  (sizes.foldl (fun acc s => acc + align64 s) 0) * num_slots

/-! ## Data model

The user metadata type is opaque to the dataset; the meta adapter exposes
its uid and data size (src/dataset.hpp requires get_uid / set_uid /
get_data_size from TMetaAdapter).  src/metadata.hpp extends it on disk
with data_offset and clean_bit. -/

/-- The adapter-visible part of a user metadata record. -/
structure metadata_type where
  uid : Nat
  data_size : Nat
deriving DecidableEq, Repr

/-- Embeds s1o::file_metadata (src/metadata.hpp): the user metadata
extended with the data offset and the clean bit. -/
structure file_metadata where
  meta : metadata_type
  data_offset : Nat
  clean_bit : Nat
deriving DecidableEq, Repr

/-- file_metadata::CLEAN_BIT_MAGIC. -/
def CLEAN_BIT_MAGIC : Nat := 0xCA02178F

/-- file_metadata::DIRTY_BIT_MAGIC. -/
def DIRTY_BIT_MAGIC : Nat := 0xDF349172

/-- The typed errors thrown by the embedded code paths
(src/exceptions.hpp), together with the structured attributes each throw
site attaches. -/
inductive Err
  | mmapped
  | not_mmapped
  | read_only
  | empty_mmap
  | create_without_write
  | extensions_equal
  | no_data
  | unsorted_data
  | check_size_too_big (maximum_size actual_size : Nat)
  | invalid_num_slots (expected requested : Nat)
  | invalid_slot (maximum_slot requested_slot : Nat)
  | invalid_uid (maximum_uid requested_uid : Nat)
  | extra_slot_bytes (size_value : Nat)
  | extra_meta_bytes (size_value : Nat)
  | base_data_mismatch (expected actual position : Nat)
  | check_data_mismatch_size (expected actual : Nat)
  | check_data_mismatch (expected actual position : Nat)
  | inconsistent_meta (requested_uid read_uid : Nat)
  | inconsistent_meta_count (expected_num_elements actual : Nat)
  | inconsistent_data (expected actual : Nat)
  | incomplete_read (expected actual : Nat)
  | index_size_too_big (maximum_attempts maximum_size : Nat)
  | empty_query
  | multiple_results (n : Nat)
  | location_mismatch
deriving DecidableEq, Repr

/-- max_elements_unlimited: static_cast of -1 to size_t on the 64-bit
build platform. -/
def max_elements_unlimited : Nat := 2 ^ 64 - 1

/-- The in-memory state of a constructed dataset object, together with
the modelled content of its two files.  The meta file is represented by
its header size and the list of stored rows (its byte size is the derived
meta_file_size below); the data file by its byte size. -/
structure dataset_state where
  can_rwp : Bool
  allow_unsorted : Bool
  no_data : Bool
  mapped : Bool
  spatial_initialized : Bool
  num_slots : Nat
  slot_size : Nat
  max_elements : Nat
  meta_szof : Nat
  header_size : Nat
  rows : List file_metadata
  data_file_size : Nat
deriving DecidableEq, Repr

/-- _file_metadata_size = align64(sizeof(file_metadata)). -/
def row_size (ds : dataset_state) : Nat := align64 ds.meta_szof

/-- The current byte size of the meta file: header plus the stored rows
(each row occupies _file_metadata_size bytes). -/
def meta_file_size (ds : dataset_state) : Nat :=
  ds.header_size + row_size ds * ds.rows.length

/-- Embeds dataset::compute_num_elements: size of the metadata region of
the meta file divided by the aligned row size. -/
def compute_num_elements (ds : dataset_state) : Nat :=
  (meta_file_size ds - ds.header_size) / row_size ds

/-! ## File write events

The RWP operations act on the files through seeks and positioned writes;
push_element in particular extends the data file by seeking to the new
size minus one and writing a single zero byte.  The event trace records
the seeks and writes an operation performs, in order. -/

inductive file_id
  | meta
  | data
deriving DecidableEq, Repr

inductive file_event
  | seek (who : file_id) (pos : Nat)
  | write (who : file_id) (len : Nat)
deriving DecidableEq, Repr

/-! ## read_metadata / read_element (RWP mode) -/

/-- Embeds dataset::read_metadata (src/dataset.hpp:2387): assert RWP,
compute the element file offset (invalid_uid for uid 0 or past
max_elements), seek, read the row.  A read past the end of the file
returns zero bytes, which read_metadata reports as false (modelled as ok
none); a row whose stored uid differs from the requested one throws
inconsistent_meta. -/
def read_metadata (ds : dataset_state) (uid : Nat) :
    Except Err (Option file_metadata) :=
  if ¬ ds.can_rwp then .error .mmapped
  else if uid = 0 ∨ uid > ds.max_elements then
    .error (.invalid_uid ds.max_elements uid)
  else
    match ds.rows.get? (uid - 1) with
    | none => .ok none
    | some r =>
      if r.meta.uid ≠ uid then .error (.inconsistent_meta uid r.meta.uid)
      else .ok (some r)

/-- Embeds dataset::compute_slot_offset: invalid_slot when
slot >= num_slots, otherwise slot * slot_size.  (The maximum_slot
attribute on the error is num_slots - 1 in size_t arithmetic; Nat
truncates the wrap-around when num_slots = 0, which only changes the
attribute of an error object.) -/
def compute_slot_offset (ds : dataset_state) (slot : Nat) :
    Except Err Nat :=
  if slot ≥ ds.num_slots then
    .error (.invalid_slot (ds.num_slots - 1) slot)
  else .ok (slot * ds.slot_size)

/-- Embeds dataset::read_element (src/dataset.hpp:4290).  with_data
models whether a non-null pdata buffer was passed.  The null-pdata path
is read_metadata; the data path additionally requires a data file,
computes the slot offset and performs a complete, required read of
data_size bytes from the data file. -/
def read_element (ds : dataset_state) (uid : Nat)
    (with_data : Bool) (slot : Nat) : Except Err (Option file_metadata) :=
  if ¬ with_data then read_metadata ds uid
  else
    if ds.no_data then .error .no_data
    else
      match read_metadata ds uid with
      | .error e => .error e
      | .ok none => .ok none
      | .ok (some fm) =>
        match compute_slot_offset ds slot with
        | .error e => .error e
        | .ok slot_off =>
          let off := fm.data_offset + slot_off
          let avail := ds.data_file_size - off
          let sr := min fm.meta.data_size avail
          if (sr ≠ 0 ∧ sr ≠ fm.meta.data_size) ∨ sr = 0 then
            .error (.incomplete_read fm.meta.data_size sr)
          else .ok (some fm)

/-! ## push_element (RWP mode) -/

/-- The tail of dataset::push_element: look up the file offset of the new
uid (get_element_file_offset), write the meta row there, pad it to the
aligned row size when sizeof(file_metadata) is smaller, then re-assert
the meta file size and that the uid now fits in the file. -/
def push_element_meta (ds : dataset_state) (fm : file_metadata) (uid : Nat)
    (ds_mid : dataset_state) (evs : List file_event) :
    Except Err (dataset_state × Nat) × List file_event :=
  if uid = 0 ∨ uid > ds.max_elements then
    (.error (.invalid_uid ds.max_elements uid), evs)
  else
    let off := ds.header_size + (uid - 1) * row_size ds
    let evs1 := evs ++ [file_event.seek .meta off,
      file_event.write .meta ds.meta_szof]
    let evs2 := evs1 ++ (if ds.meta_szof < row_size ds then
        [file_event.seek .meta (off + row_size ds - 1),
         file_event.write .meta 1]
      else [])
    let ds' := { ds_mid with rows := ds_mid.rows ++ [fm] }
    -- assert_meta_file_size
    if (meta_file_size ds' - ds'.header_size) % row_size ds' ≠ 0 then
      (.error (.extra_meta_bytes
        ((meta_file_size ds' - ds'.header_size) % row_size ds')), evs2)
    -- assert_uid_in_file
    else if uid > compute_num_elements ds' then
      (.error (.invalid_uid (compute_num_elements ds') uid), evs2)
    else (.ok (ds', uid), evs2)

/-- Embeds dataset::push_element (src/dataset.hpp:4489).  Returns the
outcome (the updated state and the new uid) together with the trace of
file events performed before the outcome was reached.  p_data models
whether a non-null data pointer was passed. -/
def push_element (ds : dataset_state) (m : metadata_type)
    (p_data : Bool) : Except Err (dataset_state × Nat) × List file_event :=
  if ¬ ds.can_rwp then (.error .mmapped, [])
  else if ds.num_slots > 1 then
    (.error (.invalid_num_slots 1 ds.num_slots), [])
  else
    let uid := compute_num_elements ds + 1
    -- file_metadata file_meta(meta); clean_bit := CLEAN; set_uid(uid)
    let fm0 : file_metadata :=
      { meta := { m with uid := uid }, data_offset := 0,
        clean_bit := CLEAN_BIT_MAGIC }
    if ds.no_data then
      if p_data then (.error .no_data, [])
      else push_element_meta ds fm0 uid ds []
    else
      let data_size := m.data_size
      let aligned_data_size := align64 data_size
      let data_off := ds.data_file_size
      let fm := { fm0 with data_offset := data_off }
      let new_file_size := data_off + aligned_data_size
      -- seek to new_file_size - 1 and write one zero byte (the branch is
      -- always taken: align64 never returns 0)
      let evs1 := if aligned_data_size > 0 then
          [file_event.seek .data (new_file_size - 1),
           file_event.write .data 1]
        else []
      let ds1 := { ds with data_file_size :=
        if aligned_data_size > 0 then max ds.data_file_size new_file_size
        else ds.data_file_size }
      let evs2 := if p_data then
          [file_event.seek .data data_off, file_event.write .data data_size]
        else []
      push_element_meta ds fm uid ds1 (evs1 ++ evs2)

/-! ## find_element (src/dataset.hpp:4047)

The spatial adapter is an external collaborator; it is modelled by the
function that maps a nearest-k predicate to the list of query results,
by the point-equality test it exposes, and by the location accessor of
the meta adapter. -/

/-- Embeds s1o::queries::nearest (src/queries/nearest.hpp). -/
structure nearest_query (P : Type) where
  point : P
  k : Nat
deriving DecidableEq, Repr

/-- Embeds dataset::find_element: run the nearest query with k = 1, fail
empty_query when it returns nothing, multiple_results when it returns
more than one element, location_mismatch when the single result is not at
the query point, and return the element otherwise. -/
def find_element {P E : Type} (query : nearest_query P → List E)
    (equals : P → P → Bool) (location : E → P) (point : P) :
    Except Err E :=
  match query { point := point, k := 1 } with
  | [] => .error .empty_query
  | elem :: rest =>
    match rest with
    | [] =>
      if equals point (location elem) then .ok elem
      else .error .location_mismatch
    | _ :: _ => .error (.multiple_results (rest.length + 1))

/-- dataset::find_metadata is the same algorithm run over the metadata
query pipeline instead of the element-pair pipeline. -/
def find_metadata {P M : Type} (query : nearest_query P → List M)
    (equals : P → P → Bool) (location : M → P) (point : P) :
    Except Err M :=
  find_element query equals location point

/-! ## Meta-file header (src/dataset.hpp, fill_base_data /
assert_base_data) -/

/-- S1O_VERSION_MAJOR. -/
def S1O_VERSION_MAJOR : Nat := 0

/-- S1O_VERSION_MINOR. -/
def S1O_VERSION_MINOR : Nat := 1

/-- S1O_VERSION_REVISION. -/
def S1O_VERSION_REVISION : Nat := 0

/-- sizeof(unsigned int) at build time on the x86-64 build platform. -/
def UINT_SIZE : Nat := 4

/-- Modelled from the spec: src/types.hpp (which defines foffset_t) is
not among the provided sources; the specification fixes foffset_t as a
64-bit offset type, so sizeof(foffset_t) = 8. -/
def FOFFSET_SIZE : Nat := 8

/-- sizeof(meta_base_structure): seven packed 4-byte fields plus the
8-byte magic. -/
def meta_base_structure_size : Nat := 36

/-- max_meta_check_size (1MB). -/
def max_meta_check_size : Nat := 1024 * 1024

/-- Embeds s1o::meta_base_structure (src/dataset.hpp:101). -/
structure meta_base_structure where
  one : Nat
  uintsz : Nat
  fofsz : Nat
  checksz : Nat
  metasz : Nat
  version : Nat
  revision : Nat
  magic : List Nat
deriving DecidableEq, Repr

/-- The little-endian bytes of a 32-bit field. -/
def u32le (x : Nat) : List Nat :=
  [x % 256, x / 256 % 256, x / 65536 % 256, x / 16777216 % 256]

/-- The bytes of the packed header structure, in layout order. -/
def base_bytes (b : meta_base_structure) : List Nat :=
  u32le b.one ++ u32le b.uintsz ++ u32le b.fofsz ++ u32le b.checksz ++
    u32le b.metasz ++ u32le b.version ++ u32le b.revision ++ b.magic

/-- Embeds dataset::fill_base_data (src/dataset.hpp:1495): the canonical
build-time header for a dataset with the given check size and aligned row
size.  The magic bytes spell CBENES1O. -/
def fill_base_data (meta_check_size file_metadata_size : Nat) :
    meta_base_structure :=
  { one := 1
    uintsz := UINT_SIZE
    fofsz := FOFFSET_SIZE
    checksz := meta_check_size
    metasz := file_metadata_size
    version := (S1O_VERSION_MAJOR <<< 16) ||| S1O_VERSION_MINOR
    revision := S1O_VERSION_REVISION
    magic := [0x43, 0x42, 0x45, 0x4E, 0x45, 0x53, 0x31, 0x4F] }

/-- std::mismatch over two byte ranges: the position and the two byte
values at the first index where they differ. -/
def first_mismatch : Nat → List Nat → List Nat → Option (Nat × Nat × Nat)
  | _, [], _ => none
  | _, _ :: _, [] => none
  | pos, x :: xs, y :: ys =>
    if x = y then first_mismatch (pos + 1) xs ys else some (pos, x, y)

/-- Embeds dataset::assert_base_data (src/dataset.hpp:1549): compare the
stored header byte-for-byte against the canonical one; on the first
difference throw base_data_mismatch carrying the expected (canonical)
byte, the actual (stored) byte and the position. -/
def assert_base_data (canonical stored : meta_base_structure) :
    Except Err Unit :=
  match first_mismatch 0 (base_bytes canonical) (base_bytes stored) with
  | none => .ok ()
  | some (p, e, a) => .error (.base_data_mismatch e a p)

/-- Embeds dataset::assert_meta_check_data: byte-for-byte comparison of
the adapter check block against the stored one. -/
def assert_meta_check_data (adapter_check stored_check : List Nat) :
    Except Err Unit :=
  match first_mismatch 0 adapter_check stored_check with
  | none => .ok ()
  | some (p, e, a) => .error (.check_data_mismatch e a p)

/-- Embeds dataset::compute_meta_file_header_size: the base structure
plus the check block, aligned to 64 bytes. -/
def compute_meta_file_header_size (meta_check_size : Nat) : Nat :=
  align64 (meta_check_size + meta_base_structure_size)

/-! ## Mapped-file helper (src/helpers/mapped_file_helper.hpp,
create_new)

The bulk load performed by the callback either fits in the managed
mapped file of a given raw size or raises bad_alloc; it is modelled by
the predicate alloc_ok on the attempted file size.  The trace returned
alongside the outcome lists the raw size of every mapped file created
(each creation is preceded by removing the previous file). -/

/-- The fields of mapped_file_helper::initialization_info that create_new
fills on success. -/
structure initialization_info where
  raw_size_bytes : Nat
  attempts : Nat
deriving DecidableEq, Repr

/-- The retry loop of mapped_file_helper::create_new
(src/helpers/mapped_file_helper.hpp:213), with the attempt counter and
the number of attempts still allowed after the current one. -/
def create_new_go (starting_file_size file_increment : Nat)
    (alloc_ok : Nat → Bool) :
    Nat → Nat → List Nat → (Except Err initialization_info) × List Nat
  | attempt, remaining, tried =>
    let file_size := starting_file_size + attempt * file_increment
    let tried' := tried ++ [file_size]
    if alloc_ok file_size then
      (.ok { raw_size_bytes := file_size, attempts := attempt + 1 }, tried')
    else
      match remaining with
      | 0 => (.error (.index_size_too_big attempt file_size), tried')
      | r + 1 =>
        create_new_go starting_file_size file_increment alloc_ok
          (attempt + 1) r tried'

/-- Embeds mapped_file_helper::create_new: attempts run from 0 through
resize_attempts inclusive. -/
def create_new (starting_file_size file_increment resize_attempts : Nat)
    (alloc_ok : Nat → Bool) : (Except Err initialization_info) × List Nat :=
  create_new_go starting_file_size file_increment alloc_ok 0
    resize_attempts []

/-! ## unlink (src/dataset.hpp:2844)

The filesystem is modelled as the list of existing paths; the fault
oracle injects the result of the underlying unlink system call for paths
where it is not the pure remove-if-present behaviour (none means the call
behaves normally; some e means it fails with errno e). -/

/-- errno ENOENT. -/
def ENOENT : Nat := 2

/-- Embeds unlink_checked (src/checked.hpp): remove the path, failing
with ENOENT when it does not exist, or with the injected errno. -/
def unlink_checked (fault : String → Option Nat) (fs : List String)
    (f : String) : Except Nat (List String) :=
  match fault f with
  | some e => .error e
  | none => if fs.contains f then .ok (fs.erase f) else .error ENOENT

/-- The loop of dataset::unlink: unlink each file, ignoring ENOENT and
rethrowing every other error. -/
def unlink_files (fault : String → Option Nat) :
    List String → List String → Except Nat (List String)
  | [], fs => .ok fs
  | f :: rest, fs =>
    match unlink_checked fault fs f with
    | .ok fs' => unlink_files fault rest fs'
    | .error e =>
      if e = ENOENT then unlink_files fault rest fs else .error e

/-- Embeds dataset::unlink: remove the meta file, the data file and
every adapter extra file. -/
def dataset_unlink (fault : String → Option Nat)
    (basename meta_ext data_ext : String) (extra_files : List String)
    (fs : List String) : Except Nat (List String) :=
  unlink_files fault
    ([basename ++ "." ++ meta_ext, basename ++ "." ++ data_ext] ++
      extra_files) fs

/-! ## The open constructor (src/dataset.hpp:2603)

The constructor is modelled end to end: the member-initializer list runs
first (opening or truncating the files, mapping them unless RWP,
computing max_elements and the slot size), then the body (filename
check, the RWP/ALLOW_UNSORTED rule, the num_slots rules, header
validation, spatial-storage initialization, and the data cross-check).
compute_slot_size divides the data file size by num_slots with no guard,
so num_slots = 0 without NO_DATA reaches a modulo by zero, which C++
leaves undefined; the model makes that outcome explicit. -/

inductive open_outcome
  | ok (ds : dataset_state)
  | err (e : Err)
  | ub_div_by_zero
deriving DecidableEq, Repr

structure open_mode where
  write : Bool
  trunc : Bool
deriving DecidableEq, Repr

structure open_flags where
  rwp : Bool
  no_data : Bool
  allow_unsorted : Bool
  no_data_check : Bool
deriving DecidableEq, Repr

/-- The on-disk content of an existing dataset: the sizes of the two
files, the stored header and check block, and the stored rows. -/
structure stored_files where
  meta_size : Nat
  data_size : Nat
  stored_base : meta_base_structure
  stored_check : List Nat
  rows : List file_metadata
deriving DecidableEq, Repr

/-- Everything the open constructor receives: its arguments, the adapter
data, and the state of the files on disk.  storage_sorted abstracts the
order check done over the freshly initialized spatial storage (whether
the adapter in-order traversal yields nondecreasing data pointers). -/
structure open_args where
  mode : open_mode
  flags : open_flags
  num_slots : Nat
  meta_szof : Nat
  adapter_check : List Nat
  file_names : List String
  files : stored_files
  storage_sorted : Bool
deriving DecidableEq, Repr

/-- std::pair operator< on (data_offset, data_size). -/
def pair_lt (p q : Nat × Nat) : Bool :=
  p.1 < q.1 || (p.1 = q.1 && p.2 < q.2)

/-- Insertion into a list sorted by pair_lt. -/
def insert_sorted (x : Nat × Nat) : List (Nat × Nat) → List (Nat × Nat)
  | [] => [x]
  | y :: ys => if pair_lt y x then y :: insert_sorted x ys else x :: y :: ys

/-- std::sort of the (data_offset, data_size) pairs; the order is total
on the pairs, so insertion sort produces the same list. -/
def sort_pairs : List (Nat × Nat) → List (Nat × Nat)
  | [] => []
  | x :: xs => insert_sorted x (sort_pairs xs)

/-- The offset walk of the cross-check loop (src/dataset.hpp:2714): every
sorted (offset, size) pair must start where the previous aligned size
ended, the final offset must equal the slot size, and slot size times the
number of slots must equal the data file size. -/
def check_offsets (slot_size num_slots real_size : Nat) :
    Nat → List (Nat × Nat) → Except Err Unit
  | current_offset, [] =>
    if current_offset ≠ slot_size then
      .error (.inconsistent_data slot_size current_offset)
    else if current_offset * num_slots ≠ real_size then
      .error (.inconsistent_data real_size (current_offset * num_slots))
    else .ok ()
  | current_offset, (off, sz) :: rest =>
    if current_offset ≠ off then
      .error (.inconsistent_data current_offset off)
    else check_offsets slot_size num_slots real_size
      (current_offset + align64 sz) rest

/-- The data cross-check of the open constructor: sort the collected
(data_offset, data_size) pairs, check the element count, then walk the
offsets. -/
def data_check_phase (info : List (Nat × Nat))
    (num_elements slot_size num_slots real_size : Nat) : Except Err Unit :=
  let sorted := sort_pairs info
  if sorted.length ≠ num_elements then
    .error (.inconsistent_meta_count num_elements sorted.length)
  else check_offsets slot_size num_slots real_size 0 sorted

/-- Embeds dataset::get_data_info_fd: read every row through
read_metadata, failing when a row is missing or carries the wrong uid,
and collect the (data_offset, data_size) pairs. -/
def get_data_info_fd (rows : List file_metadata) (num_elements : Nat) :
    List Nat → Except Err (List (Nat × Nat))
  | [] => .ok []
  | i :: rest =>
    match rows.get? i with
    | none => .error (.inconsistent_meta_count num_elements (i + 1))
    | some r =>
      if r.meta.uid ≠ i + 1 then
        .error (.inconsistent_meta (i + 1) r.meta.uid)
      else
        match get_data_info_fd rows num_elements rest with
        | .error e => .error e
        | .ok l => .ok ((r.data_offset, r.meta.data_size) :: l)

/-- Embeds dataset::get_data_info_mem: the mapped rows are read directly,
without uid validation; max_elements is computed from the mapped file
size, so every index is in range (the default pair is unreachable under
that invariant). -/
def get_data_info_mem (rows : List file_metadata) (num_elements : Nat) :
    List (Nat × Nat) :=
  (List.range num_elements).map fun i =>
    match rows.get? i with
    | some r => (r.data_offset, r.meta.data_size)
    | none => (0, 0)

/-- dataset::assert_filenames sorts the file names and rejects adjacent
duplicates; a duplicate exists after sorting exactly when one exists at
all. -/
def any_duplicate : List String → Bool
  | [] => false
  | x :: xs => xs.contains x || any_duplicate xs

/-- The body of the open constructor after the num_slots checks: header
validation (init_meta_fd / init_meta_mem with new_ds = false performs the
assertions; with new_ds = true it writes the header), spatial storage
initialization in mapped mode, and the data cross-check. -/
def open_dataset_checks (a : open_args) (can_rwp allow_unsorted : Bool)
    (rsz msize dsize header_size max_elements slot_size : Nat)
    (new_ds data_check : Bool) : open_outcome :=
  let header_res : Except Err Unit :=
    if new_ds then .ok ()
    else
      -- init_meta_fd reads the check block with a plain (non-complete)
      -- read and compares the size read against the expected one
      if can_rwp ∧ a.files.stored_check.length ≠ a.adapter_check.length then
        .error (.check_data_mismatch_size a.adapter_check.length
          a.files.stored_check.length)
      else
        match assert_base_data (fill_base_data a.adapter_check.length rsz)
            a.files.stored_base with
        | .error e => .error e
        | .ok () =>
          match assert_meta_check_data a.adapter_check
              a.files.stored_check with
          | .error e => .error e
          | .ok () =>
            -- assert_meta_file_size
            if (msize - header_size) % rsz ≠ 0 then
              .error (.extra_meta_bytes ((msize - header_size) % rsz))
            else .ok ()
  match header_res with
  | .error e => .err e
  | .ok () =>
    -- init_spstruct_mem runs only in mapped mode; after bulk loading it
    -- checks the storage order unless allow_unsorted or no_data
    if ¬ can_rwp ∧ ¬ allow_unsorted ∧ ¬ a.flags.no_data ∧
        ¬ a.storage_sorted then .err .unsorted_data
    else
      let rows := if new_ds then [] else a.files.rows
      let ds : dataset_state :=
        { can_rwp := can_rwp
          allow_unsorted := allow_unsorted
          no_data := a.flags.no_data
          mapped := ! can_rwp
          spatial_initialized := ! can_rwp
          num_slots := a.num_slots
          slot_size := slot_size
          max_elements := max_elements
          meta_szof := a.meta_szof
          header_size := header_size
          rows := rows
          data_file_size := dsize }
      if data_check ∧ ¬ new_ds ∧ max_elements > 0 then
        let num_elements := if can_rwp then (msize - header_size) / rsz
          else max_elements
        let info_res : Except Err (List (Nat × Nat)) :=
          if can_rwp then
            get_data_info_fd rows num_elements (List.range num_elements)
          else .ok (get_data_info_mem rows num_elements)
        match info_res with
        | .error e => .err e
        | .ok info =>
          match data_check_phase info num_elements slot_size a.num_slots
              dsize with
          | .error e => .err e
          | .ok () => .ok ds
      else .ok ds

/-- _can_rwp: the RWP flag or a truncating open mode. -/
def od_can_rwp (a : open_args) : Bool := a.flags.rwp || a.mode.trunc

/-- _allow_unsorted: the ALLOW_UNSORTED flag or the NO_DATA flag. -/
def od_allow_unsorted (a : open_args) : Bool :=
  a.flags.allow_unsorted || a.flags.no_data

/-- The meta file size seen by the constructor (zero after O_TRUNC). -/
def od_msize (a : open_args) : Nat :=
  if a.mode.trunc then 0 else a.files.meta_size

/-- The data file size seen by the constructor (zero after O_TRUNC). -/
def od_dsize (a : open_args) : Nat :=
  if a.mode.trunc then 0 else a.files.data_size

/-- _meta_file_elem_beg_off, the aligned header size. -/
def od_header_size (a : open_args) : Nat :=
  compute_meta_file_header_size a.adapter_check.length

/-- _max_elements: unlimited for RWP, otherwise computed from the meta
file size. -/
def od_max_elements (a : open_args) : Nat :=
  if od_can_rwp a then max_elements_unlimited
  else (od_msize a - od_header_size a) / align64 a.meta_szof

/-- _slot_size := no_data ? 0 : compute_slot_size(). -/
def od_slot_size (a : open_args) : Nat :=
  if a.flags.no_data then 0 else od_dsize a / a.num_slots

/-- The extension check done in the body of the _dataset_fd_base
constructor: the meta and data extensions (the first two file names)
must differ. -/
def fd_extensions_equal (names : List String) : Bool :=
  match names with
  | m :: d :: _ => m == d
  | _ => false

/-- Embeds the dataset open constructor (src/dataset.hpp:2603): the
member-initializer list in declaration order (opening the files,
truncating on TRUNC, mapping unless RWP and rejecting equal extensions
inside the file-pair handle, computing max_elements and the slot size),
then the body.  The check-block size limit is hit while computing
max_elements on the mapped path but only at the header-offset member on
the RWP path, after the slot size; and compute_slot_size takes the data
file size modulo _num_slots without a guard, which the model surfaces as
the undefined-behaviour outcome. -/
def open_dataset (a : open_args) : open_outcome :=
  if a.mode.trunc ∧ ¬ a.mode.write then .err .create_without_write
  else if ¬ od_can_rwp a ∧ od_msize a = 0 then .err .empty_mmap
  else if ¬ od_can_rwp a ∧ ¬ a.flags.no_data ∧ od_dsize a = 0 then
    .err .empty_mmap
  else if fd_extensions_equal a.file_names then .err .extensions_equal
  else if ¬ od_can_rwp a ∧ a.adapter_check.length > max_meta_check_size
    then
    .err (.check_size_too_big max_meta_check_size a.adapter_check.length)
  else if ¬ a.flags.no_data ∧ a.num_slots = 0 then .ub_div_by_zero
  else if ¬ a.flags.no_data ∧ od_dsize a % a.num_slots ≠ 0 then
    .err (.extra_slot_bytes (od_dsize a % a.num_slots))
  else if od_can_rwp a ∧ a.adapter_check.length > max_meta_check_size
    then
    .err (.check_size_too_big max_meta_check_size a.adapter_check.length)
  else if any_duplicate a.file_names then .err .extensions_equal
  else if od_can_rwp a ∧ ¬ od_allow_unsorted a then .err .unsorted_data
  else if a.flags.no_data ∧ a.num_slots ≠ 0 then
    .err (.invalid_num_slots 0 a.num_slots)
  else if ¬ a.flags.no_data ∧ a.mode.trunc ∧ a.num_slots ≠ 1 then
    .err (.invalid_num_slots 1 a.num_slots)
  else open_dataset_checks a (od_can_rwp a) (od_allow_unsorted a)
    (align64 a.meta_szof) (od_msize a) (od_dsize a) (od_header_size a)
    (od_max_elements a) (od_slot_size a) a.mode.trunc
    (¬ a.flags.no_data_check ∧ ¬ a.flags.no_data)

/-! ## Specification-side predicates used to state the properties -/

/-- The sorted (offset, size) pairs are gapless starting from the given
offset: each offset equals the accumulated offset, which advances by the
aligned size. -/
def gapless_from (current : Nat) : List (Nat × Nat) → Bool
  | [] => true
  | (off, sz) :: rest =>
    decide (off = current) && gapless_from (current + align64 sz) rest

/-- The offset reached after walking all aligned sizes. -/
def end_offset (current : Nat) : List (Nat × Nat) → Nat
  | [] => current
  | (_, sz) :: rest => end_offset (current + align64 sz) rest

/-! ## Supporting lemmas -/

theorem align64_zero : align64 0 = 64 := rfl

theorem align64_pos (s : Nat) : 0 < align64 s := by
  unfold align64
  split
  · exact Nat.zero_lt_succ 63
  · exact Nat.mul_pos (Nat.succ_le_succ (Nat.zero_le _)) (by omega)

theorem align64_dvd (s : Nat) : 64 ∣ align64 s := by
  unfold align64
  split
  · exact ⟨1, rfl⟩
  · exact Dvd.intro_left _ rfl

theorem align64_ge (s : Nat) : s ≤ align64 s := by
  unfold align64
  split
  · omega
  · have h := Nat.div_add_mod (s - 1) 64
    have h2 : (s - 1) % 64 < 64 := Nat.mod_lt _ (by omega)
    omega

theorem align64_lt (s : Nat) (hs : 1 ≤ s) : align64 s < s + 64 := by
  unfold align64
  rw [if_neg (by omega)]
  have h := Nat.div_add_mod (s - 1) 64
  have h2 : (s - 1) % 64 < 64 := Nat.mod_lt _ (by omega)
  omega

theorem align64_least (s m : Nat) (hs : 1 ≤ s) (hdvd : 64 ∣ m)
    (hle : s ≤ m) : align64 s ≤ m := by
  obtain ⟨t, rfl⟩ := hdvd
  unfold align64
  split
  · omega
  · have h := Nat.div_add_mod (s - 1) 64
    have h2 : (s - 1) % 64 < 64 := Nat.mod_lt _ (by omega)
    have ht : (s - 1) / 64 < t := by omega
    calc ((s - 1) / 64 + 1) * 64 ≤ t * 64 := Nat.mul_le_mul_right 64 ht
    _ = 64 * t := Nat.mul_comm t 64

theorem foldl_align64_shift (l : List Nat) (a : Nat) :
    l.foldl (fun acc s => acc + align64 s) a =
      a + l.foldl (fun acc s => acc + align64 s) 0 := by
  induction l generalizing a with
  | nil => simp
  | cons x xs ih =>
    simp only [List.foldl_cons]
    rw [ih (a + align64 x), ih (0 + align64 x)]
    omega

theorem compute_num_elements_eq (ds : dataset_state) :
    compute_num_elements ds = ds.rows.length := by
  unfold compute_num_elements meta_file_size
  have h : 0 < row_size ds := align64_pos ds.meta_szof
  rw [Nat.add_sub_cancel_left, Nat.mul_div_cancel_left _ h]

theorem meta_mod_zero (r : dataset_state) :
    (meta_file_size r - r.header_size) % row_size r = 0 := by
  unfold meta_file_size
  rw [Nat.add_sub_cancel_left, Nat.mul_mod_right]

/-! ## C10 -/

/-- C10: for every size s >= 1, align64 returns the least multiple of 64
that is at least s; align64 0 = 64, not 0; consequently a record of data
size 0 still contributes 64 bytes per slot to the data file size. -/
theorem C10_align64_least_multiple (s : Nat) (hs : 1 ≤ s) :
    (64 ∣ align64 s ∧ s ≤ align64 s ∧
      (∀ m, 64 ∣ m → s ≤ m → align64 s ≤ m)) ∧
    align64 0 = 64 ∧
    (∀ sizes num_slots,
      compute_data_file_size (0 :: sizes) num_slots =
        64 * num_slots + compute_data_file_size sizes num_slots) := by
  refine ⟨⟨align64_dvd s, align64_ge s,
    fun m hd hl => align64_least s m hs hd hl⟩,
    align64_zero, fun sizes num_slots => ?_⟩
  unfold compute_data_file_size
  simp only [List.foldl_cons]
  rw [foldl_align64_shift]
  have : align64 0 = 64 := rfl
  rw [this]
  ring

/-- Witness for C10 at the concrete size 3. -/
theorem C10_align64_least_multiple_witness :
    1 ≤ 3 ∧
    ((64 ∣ align64 3 ∧ 3 ≤ align64 3 ∧
      (∀ m, 64 ∣ m → 3 ≤ m → align64 3 ≤ m)) ∧
    align64 0 = 64 ∧
    (∀ sizes num_slots,
      compute_data_file_size (0 :: sizes) num_slots =
        64 * num_slots + compute_data_file_size sizes num_slots)) :=
  ⟨by omega, C10_align64_least_multiple 3 (by omega)⟩

/-! ## C1 -/

/-- C1: on an RWP dataset with num_slots <= 1, push_element succeeds and
returns uid N + 1 where N is the number of rows currently in the meta
file; in the data-file case it extends the data file by the aligned data
size through a seek to the new size minus one followed by a one-byte
zero write, then writes the data (when supplied), then the meta row at
the row offset of the new uid, padded to the aligned row size; with
num_slots > 1 it fails with invalid_num_slots having performed no file
event. -/
theorem C1_push_element_spec (ds : dataset_state) (m : metadata_type)
    (p_data : Bool)
    (h_rwp : ds.can_rwp = true)
    (h_max : ds.max_elements = max_elements_unlimited)
    (h_len : ds.rows.length + 1 ≤ max_elements_unlimited) :
    (ds.num_slots > 1 →
      push_element ds m p_data =
        (.error (.invalid_num_slots 1 ds.num_slots), [])) ∧
    (ds.num_slots ≤ 1 → ds.no_data = false →
      push_element ds m p_data =
        (.ok ({ ds with
            rows := ds.rows ++
              [{ meta := { uid := ds.rows.length + 1,
                           data_size := m.data_size },
                 data_offset := ds.data_file_size,
                 clean_bit := CLEAN_BIT_MAGIC }],
            data_file_size := ds.data_file_size + align64 m.data_size },
          ds.rows.length + 1),
         [file_event.seek .data
            (ds.data_file_size + align64 m.data_size - 1),
          file_event.write .data 1] ++
         (if p_data then
            [file_event.seek .data ds.data_file_size,
             file_event.write .data m.data_size]
          else []) ++
         [file_event.seek .meta
            (ds.header_size + ds.rows.length * row_size ds),
          file_event.write .meta ds.meta_szof] ++
         (if ds.meta_szof < row_size ds then
            [file_event.seek .meta
               (ds.header_size + ds.rows.length * row_size ds +
                 row_size ds - 1),
             file_event.write .meta 1]
          else []))) ∧
    (ds.num_slots ≤ 1 → ds.no_data = true → p_data = false →
      (push_element ds m p_data).1 =
        .ok ({ ds with rows := ds.rows ++
            [{ meta := { uid := ds.rows.length + 1,
                         data_size := m.data_size },
               data_offset := 0, clean_bit := CLEAN_BIT_MAGIC }] },
          ds.rows.length + 1)) ∧
    (ds.num_slots ≤ 1 → ds.no_data = true → p_data = true →
      push_element ds m p_data = (.error .no_data, [])) ∧
    compute_num_elements ds = ds.rows.length := by
  have hN := compute_num_elements_eq ds
  have hpos : 0 < align64 m.data_size := align64_pos _
  refine ⟨?_, ?_, ?_, ?_, hN⟩
  · intro h
    simp [push_element, h_rwp, h]
  · intro hslots hnd
    have hgt : ¬ ds.num_slots > 1 := by omega
    have hbound : ¬ (ds.rows.length + 1 = 0 ∨
        ds.rows.length + 1 > ds.max_elements) := by
      rw [h_max]; omega
    have hmax2 : max ds.data_file_size
        (ds.data_file_size + align64 m.data_size) =
        ds.data_file_size + align64 m.data_size :=
      Nat.max_eq_right (Nat.le_add_right _ _)
    unfold push_element
    rw [h_rwp]
    simp only [not_true_eq_false, if_false, if_neg hgt, hN, hnd,
      Bool.false_eq_true, if_false, if_pos hpos, hmax2]
    unfold push_element_meta
    rw [if_neg hbound]
    rw [if_neg (by simp [meta_mod_zero])]
    rw [if_neg (by simp [compute_num_elements_eq])]
    simp [List.append_assoc]
  · intro hslots hnd hpd
    have hgt : ¬ ds.num_slots > 1 := by omega
    have hbound : ¬ (ds.rows.length + 1 = 0 ∨
        ds.rows.length + 1 > ds.max_elements) := by
      rw [h_max]; omega
    unfold push_element
    rw [h_rwp]
    simp only [not_true_eq_false, if_false, if_neg hgt, hN, hnd, hpd,
      if_true, Bool.false_eq_true, if_false]
    unfold push_element_meta
    rw [if_neg hbound]
    rw [if_neg (by simp [meta_mod_zero])]
    rw [if_neg (by simp [compute_num_elements_eq])]
    simp [h_rwp, hnd]
  · intro hslots hnd hpd
    have hgt : ¬ ds.num_slots > 1 := by omega
    simp [push_element, h_rwp, hgt, hnd, hpd]

/-- Witness for C1: a concrete RWP dataset with two slots refuses the
push with invalid_num_slots and performs no file event. -/
theorem C1_push_element_spec_witness :
    push_element
      { can_rwp := true, allow_unsorted := true, no_data := false,
        mapped := false, spatial_initialized := false, num_slots := 2,
        slot_size := 128, max_elements := max_elements_unlimited,
        meta_szof := 16, header_size := 64, rows := [],
        data_file_size := 256 }
      { uid := 9, data_size := 10 } true =
      (.error (.invalid_num_slots 1 2), []) :=
  (C1_push_element_spec
    { can_rwp := true, allow_unsorted := true, no_data := false,
      mapped := false, spatial_initialized := false, num_slots := 2,
      slot_size := 128, max_elements := max_elements_unlimited,
      meta_szof := 16, header_size := 64, rows := [],
      data_file_size := 256 }
    { uid := 9, data_size := 10 } true rfl rfl (by decide)).1 (by decide)

/-! ## C5 -/

/-- C5: on an RWP dataset, read_element returns false (ok none) when the
seek-and-read reaches the end of the meta file; when a row is read it
fails with inconsistent_meta if the stored uid differs from the requested
one, and otherwise returns true with metadata whose uid equals the input
uid.  The end-of-file behaviour also holds when a data buffer is
passed. -/
theorem C5_read_element_spec (ds : dataset_state) (uid : Nat)
    (h_rwp : ds.can_rwp = true)
    (h_max : ds.max_elements = max_elements_unlimited)
    (h1 : 1 ≤ uid) (h2 : uid ≤ max_elements_unlimited) :
    (ds.rows.get? (uid - 1) = none →
      read_element ds uid false 0 = .ok none) ∧
    (∀ r, ds.rows.get? (uid - 1) = some r → r.meta.uid ≠ uid →
      read_element ds uid false 0 =
        .error (.inconsistent_meta uid r.meta.uid)) ∧
    (∀ r, ds.rows.get? (uid - 1) = some r → r.meta.uid = uid →
      read_element ds uid false 0 = .ok (some r) ∧ r.meta.uid = uid) ∧
    (ds.no_data = false → ds.rows.get? (uid - 1) = none → ∀ slot,
      read_element ds uid true slot = .ok none) := by
  have hbound : ¬ (uid = 0 ∨ uid > ds.max_elements) := by
    rw [h_max]; omega
  refine ⟨?_, ?_, ?_, ?_⟩
  · intro hnone
    rw [List.get?_eq_getElem?] at hnone
    simp [read_element, read_metadata, h_rwp, hbound, hnone]
  · intro r hsome hne
    rw [List.get?_eq_getElem?] at hsome
    simp [read_element, read_metadata, h_rwp, hbound, hsome, hne]
  · intro r hsome heq
    rw [List.get?_eq_getElem?] at hsome
    refine ⟨?_, heq⟩
    simp [read_element, read_metadata, h_rwp, hbound, hsome, heq]
  · intro hnd hnone slot
    rw [List.get?_eq_getElem?] at hnone
    simp [read_element, read_metadata, h_rwp, hbound, hnone, hnd]

/-- Witness for C5 on a concrete two-row RWP dataset, reading uid 2. -/
theorem C5_read_element_spec_witness :
    read_element
      { can_rwp := true, allow_unsorted := true, no_data := false,
        mapped := false, spatial_initialized := false, num_slots := 1,
        slot_size := 128, max_elements := max_elements_unlimited,
        meta_szof := 16, header_size := 64,
        rows := [{ meta := { uid := 1, data_size := 3 }, data_offset := 0,
                   clean_bit := CLEAN_BIT_MAGIC },
                 { meta := { uid := 2, data_size := 5 }, data_offset := 64,
                   clean_bit := CLEAN_BIT_MAGIC }],
        data_file_size := 128 } 2 false 0 =
      .ok (some { meta := { uid := 2, data_size := 5 }, data_offset := 64,
                  clean_bit := CLEAN_BIT_MAGIC }) ∧
    ({ meta := { uid := 2, data_size := 5 }, data_offset := 64,
       clean_bit := CLEAN_BIT_MAGIC } : file_metadata).meta.uid = 2 :=
  (C5_read_element_spec
    { can_rwp := true, allow_unsorted := true, no_data := false,
      mapped := false, spatial_initialized := false, num_slots := 1,
      slot_size := 128, max_elements := max_elements_unlimited,
      meta_szof := 16, header_size := 64,
      rows := [{ meta := { uid := 1, data_size := 3 }, data_offset := 0,
                 clean_bit := CLEAN_BIT_MAGIC },
               { meta := { uid := 2, data_size := 5 }, data_offset := 64,
                 clean_bit := CLEAN_BIT_MAGIC }],
      data_file_size := 128 } 2 rfl rfl (by decide) (by decide)).2.2.1
    { meta := { uid := 2, data_size := 5 }, data_offset := 64,
      clean_bit := CLEAN_BIT_MAGIC } (by decide) (by decide)

/-! ## C4 -/

/-- C4: find_element (and find_metadata, which is the same algorithm over
the metadata pipeline) runs the nearest query with k = 1; it fails with
empty_query on no result, with multiple_results on more than one result,
with location_mismatch when the single result is not at the query point
according to the adapter equality, and returns the single element
otherwise. -/
theorem C4_find_element_spec {P E : Type}
    (query : nearest_query P → List E) (equals : P → P → Bool)
    (location : E → P) (point : P) :
    (query { point := point, k := 1 } = [] →
      find_element query equals location point = .error .empty_query) ∧
    (∀ elem, query { point := point, k := 1 } = [elem] →
      (equals point (location elem) = true →
        find_element query equals location point = .ok elem) ∧
      (equals point (location elem) = false →
        find_element query equals location point =
          .error .location_mismatch)) ∧
    (∀ elem elem' rest,
      query { point := point, k := 1 } = elem :: elem' :: rest →
      find_element query equals location point =
        .error (.multiple_results (rest.length + 2))) ∧
    (∀ (M : Type) (queryM : nearest_query P → List M)
        (locationM : M → P),
      find_metadata queryM equals locationM point =
        find_element queryM equals locationM point) := by
  refine ⟨?_, ?_, ?_, fun M queryM locationM => rfl⟩
  · intro hq
    simp [find_element, hq]
  · intro elem hq
    constructor
    · intro heq
      simp [find_element, hq, heq]
    · intro hne
      simp [find_element, hq, hne]
  · intro elem elem' rest hq
    simp [find_element, hq]

/-- Witness for C4: a query function returning exactly one element equal
to the query point, over points and elements that are natural numbers. -/
theorem C4_find_element_spec_witness :
    find_element (fun q => [q.point + 0]) (fun p q => p == q)
      (fun e => e) 5 = .ok 5 :=
  ((C4_find_element_spec (fun q => [q.point + 0]) (fun p q => p == q)
    (fun e => e) 5).2.1 5 (by decide)).1 (by decide)

/-! ## C6 -/

theorem first_mismatch_self (xs : List Nat) :
    ∀ pos, first_mismatch pos xs xs = none := by
  induction xs with
  | nil => intro pos; rfl
  | cons x xs ih =>
    intro pos
    unfold first_mismatch
    rw [if_pos rfl]
    exact ih (pos + 1)

theorem first_mismatch_none_eq (xs : List Nat) :
    ∀ (ys : List Nat) (pos : Nat), xs.length = ys.length →
      first_mismatch pos xs ys = none → xs = ys := by
  induction xs with
  | nil =>
    intro ys pos hl _
    cases ys with
    | nil => rfl
    | cons y ys => simp at hl
  | cons x xs ih =>
    intro ys pos hl hm
    cases ys with
    | nil => simp at hl
    | cons y ys =>
      unfold first_mismatch at hm
      by_cases hxy : x = y
      · rw [if_pos hxy] at hm
        have := ih ys (pos + 1) (by simpa using hl) hm
        rw [hxy, this]
      · rw [if_neg hxy] at hm
        exact absurd hm (by simp)

theorem first_mismatch_some_spec (xs : List Nat) :
    ∀ (ys : List Nat) (pos p e a : Nat),
      first_mismatch pos xs ys = some (p, e, a) →
      pos ≤ p ∧ xs.get? (p - pos) = some e ∧
        ys.get? (p - pos) = some a ∧ e ≠ a ∧
        ∀ i, i < p - pos → xs.get? i = ys.get? i := by
  induction xs with
  | nil =>
    intro ys pos p e a hm
    exact absurd hm (by simp [first_mismatch])
  | cons x xs ih =>
    intro ys pos p e a hm
    cases ys with
    | nil => exact absurd hm (by simp [first_mismatch])
    | cons y ys =>
      unfold first_mismatch at hm
      by_cases hxy : x = y
      · rw [if_pos hxy] at hm
        obtain ⟨hle, hg1, hg2, hne, hpre⟩ := ih ys (pos + 1) p e a hm
        have hps : p - pos = (p - (pos + 1)) + 1 := by omega
        refine ⟨by omega, ?_, ?_, hne, ?_⟩
        · rw [hps]; simpa using hg1
        · rw [hps]; simpa using hg2
        · intro i hi
          cases i with
          | zero => simp [hxy]
          | succ j =>
            have : j < p - (pos + 1) := by omega
            simpa using hpre j this
      · rw [if_neg hxy] at hm
        have hp : pos = p ∧ x = e ∧ y = a := by
          simpa using hm
        obtain ⟨rfl, rfl, rfl⟩ := hp
        refine ⟨Nat.le_refl _, by simp, by simp, hxy, ?_⟩
        intro i hi
        omega

theorem u32le_inj (x y : Nat) (hx : x < 2 ^ 32) (hy : y < 2 ^ 32)
    (h : u32le x = u32le y) : x = y := by
  simp only [u32le, List.cons.injEq] at h
  omega

theorem base_bytes_length (b : meta_base_structure) :
    (base_bytes b).length = 28 + b.magic.length := by
  simp [base_bytes, u32le]
  omega

theorem u32le_length (x : Nat) : (u32le x).length = 4 := by
  simp [u32le]

theorem base_bytes_version_eq (b1 b2 : meta_base_structure)
    (h : base_bytes b1 = base_bytes b2) :
    u32le b1.version = u32le b2.version := by
  unfold base_bytes at h
  simp only [List.append_assoc] at h
  obtain ⟨-, h⟩ := List.append_inj h (by rw [u32le_length, u32le_length])
  obtain ⟨-, h⟩ := List.append_inj h (by rw [u32le_length, u32le_length])
  obtain ⟨-, h⟩ := List.append_inj h (by rw [u32le_length, u32le_length])
  obtain ⟨-, h⟩ := List.append_inj h (by rw [u32le_length, u32le_length])
  obtain ⟨-, h⟩ := List.append_inj h (by rw [u32le_length, u32le_length])
  exact (List.append_inj h (by rw [u32le_length, u32le_length])).1

theorem base_bytes_revision_eq (b1 b2 : meta_base_structure)
    (h : base_bytes b1 = base_bytes b2) :
    u32le b1.revision = u32le b2.revision := by
  unfold base_bytes at h
  simp only [List.append_assoc] at h
  obtain ⟨-, h⟩ := List.append_inj h (by rw [u32le_length, u32le_length])
  obtain ⟨-, h⟩ := List.append_inj h (by rw [u32le_length, u32le_length])
  obtain ⟨-, h⟩ := List.append_inj h (by rw [u32le_length, u32le_length])
  obtain ⟨-, h⟩ := List.append_inj h (by rw [u32le_length, u32le_length])
  obtain ⟨-, h⟩ := List.append_inj h (by rw [u32le_length, u32le_length])
  obtain ⟨-, h⟩ := List.append_inj h (by rw [u32le_length, u32le_length])
  exact (List.append_inj h (by rw [u32le_length, u32le_length])).1

theorem assert_base_data_ok_iff (c s : meta_base_structure)
    (hl : (base_bytes c).length = (base_bytes s).length) :
    assert_base_data c s = .ok () ↔ base_bytes s = base_bytes c := by
  constructor
  · intro h
    unfold assert_base_data at h
    cases hm : first_mismatch 0 (base_bytes c) (base_bytes s) with
    | none =>
      exact (first_mismatch_none_eq (base_bytes c) (base_bytes s) 0 hl
        hm).symm
    | some v =>
      rw [hm] at h
      obtain ⟨p, e, a⟩ := v
      simp at h
  · intro h
    unfold assert_base_data
    rw [← h, first_mismatch_self]

/-- C6: opening validates the stored header byte-for-byte against the
canonical build-time header; validation succeeds exactly when the bytes
agree, any mismatch fails with base_data_mismatch carrying the position
of the first differing byte together with the expected and actual byte
values there, and in particular a header whose version or revision field
differs is rejected. -/
theorem C6_assert_base_data_spec (cz mz : Nat)
    (stored : meta_base_structure) (hmagic : stored.magic.length = 8) :
    (assert_base_data (fill_base_data cz mz) stored = .ok () ↔
      base_bytes stored = base_bytes (fill_base_data cz mz)) ∧
    (∀ e', assert_base_data (fill_base_data cz mz) stored = .error e' →
      ∃ p e a, e' = .base_data_mismatch e a p ∧
        (base_bytes (fill_base_data cz mz)).get? p = some e ∧
        (base_bytes stored).get? p = some a ∧ e ≠ a ∧
        ∀ i, i < p → (base_bytes (fill_base_data cz mz)).get? i =
          (base_bytes stored).get? i) ∧
    (∀ v, v < 2 ^ 32 → v ≠ (fill_base_data cz mz).version →
      assert_base_data (fill_base_data cz mz)
        { fill_base_data cz mz with version := v } ≠ .ok ()) ∧
    (∀ rv, rv < 2 ^ 32 → rv ≠ (fill_base_data cz mz).revision →
      assert_base_data (fill_base_data cz mz)
        { fill_base_data cz mz with revision := rv } ≠ .ok ()) := by
  have hlen : (base_bytes (fill_base_data cz mz)).length =
      (base_bytes stored).length := by
    rw [base_bytes_length, base_bytes_length, hmagic]
    rfl
  refine ⟨assert_base_data_ok_iff _ _ hlen, ?_, ?_, ?_⟩
  · intro e' herr
    unfold assert_base_data at herr
    cases hm : first_mismatch 0 (base_bytes (fill_base_data cz mz))
        (base_bytes stored) with
    | none => rw [hm] at herr; simp at herr
    | some v =>
      obtain ⟨p, e, a⟩ := v
      rw [hm] at herr
      obtain ⟨-, hg1, hg2, hne, hpre⟩ :=
        first_mismatch_some_spec _ _ 0 p e a hm
      refine ⟨p, e, a, by simpa using herr.symm, ?_, ?_, hne, ?_⟩
      · simpa using hg1
      · simpa using hg2
      · intro i hi
        simpa using hpre i (by omega)
  · intro v hv hne hok
    have hlv : (base_bytes (fill_base_data cz mz)).length =
        (base_bytes { fill_base_data cz mz with version := v }).length := by
      rw [base_bytes_length, base_bytes_length]
    have heq := (assert_base_data_ok_iff _ _ hlv).mp hok
    have hver := base_bytes_version_eq _ _ heq
    have hcv : (fill_base_data cz mz).version < 2 ^ 32 := by
      show (0 <<< 16) ||| 1 < 2 ^ 32
      decide
    exact hne (u32le_inj v _ hv hcv hver)
  · intro rv hrv hne hok
    have hlv : (base_bytes (fill_base_data cz mz)).length =
        (base_bytes { fill_base_data cz mz with revision := rv }).length := by
      rw [base_bytes_length, base_bytes_length]
    have heq := (assert_base_data_ok_iff _ _ hlv).mp hok
    have hrev := base_bytes_revision_eq _ _ heq
    have hcv : (fill_base_data cz mz).revision < 2 ^ 32 := by
      show S1O_VERSION_REVISION < 2 ^ 32
      decide
    exact hne (u32le_inj rv _ hrv hcv hrev)

/-- Witness for C6: the canonical header for check size 2 and row size 64
validates against itself. -/
theorem C6_assert_base_data_spec_witness :
    assert_base_data (fill_base_data 2 64) (fill_base_data 2 64) =
      .ok () :=
  (C6_assert_base_data_spec 2 64 (fill_base_data 2 64)
    (by decide)).1.mpr rfl

/-! ## C7 -/

theorem map_range_succ_shift (f : Nat → Nat) (n : Nat) :
    (List.range (n + 1)).map f =
      f 0 :: (List.range n).map (fun i => f (i + 1)) := by
  rw [List.range_succ_eq_map]
  simp [List.map_map, Function.comp]

theorem create_new_go_success (start inc : Nat) (alloc_ok : Nat → Bool) :
    ∀ (d remaining attempt : Nat) (tried : List Nat), d ≤ remaining →
      alloc_ok (start + (attempt + d) * inc) = true →
      (∀ d', d' < d → alloc_ok (start + (attempt + d') * inc) = false) →
      create_new_go start inc alloc_ok attempt remaining tried =
        (.ok { raw_size_bytes := start + (attempt + d) * inc,
               attempts := attempt + d + 1 },
         tried ++ (List.range (d + 1)).map
           (fun d' => start + (attempt + d') * inc)) := by
  intro d
  induction d with
  | zero =>
    intro remaining attempt tried hle hok hpre
    unfold create_new_go
    dsimp only
    rw [Nat.add_zero] at hok
    rw [if_pos hok]
    simp [List.range_succ]
  | succ d ih =>
    intro remaining attempt tried hle hok hpre
    unfold create_new_go
    dsimp only
    have h0 : alloc_ok (start + attempt * inc) = false := by
      have := hpre 0 (Nat.succ_pos d)
      simpa using this
    rw [h0]
    simp only [Bool.false_eq_true, if_false]
    cases remaining with
    | zero => omega
    | succ r =>
      have hih := ih r (attempt + 1) (tried ++ [start + attempt * inc])
        (by omega)
        (by have : attempt + 1 + d = attempt + (d + 1) := by omega
            rw [this]; exact hok)
        (by intro d' hd'
            have : attempt + 1 + d' = attempt + (d' + 1) := by omega
            rw [this]; exact hpre (d' + 1) (by omega))
      dsimp only at hih ⊢
      rw [hih]
      have hfun : (fun d' => start + (attempt + 1 + d') * inc) =
          (fun d' => start + (attempt + (d' + 1)) * inc) := by
        funext d'
        ring_nf
      have harith : attempt + 1 + d = attempt + (d + 1) := by omega
      rw [hfun, harith, map_range_succ_shift, map_range_succ_shift]
      simp [List.append_assoc]
      try rw [map_range_succ_shift]
      try simp

theorem create_new_go_failure (start inc : Nat) (alloc_ok : Nat → Bool) :
    ∀ (remaining attempt : Nat) (tried : List Nat),
      (∀ d, d ≤ remaining → alloc_ok (start + (attempt + d) * inc) = false) →
      create_new_go start inc alloc_ok attempt remaining tried =
        (.error (.index_size_too_big (attempt + remaining)
           (start + (attempt + remaining) * inc)),
         tried ++ (List.range (remaining + 1)).map
           (fun d => start + (attempt + d) * inc)) := by
  intro remaining
  induction remaining with
  | zero =>
    intro attempt tried h
    unfold create_new_go
    dsimp only
    have h0 : alloc_ok (start + attempt * inc) = false := by
      simpa using h 0 (Nat.le_refl 0)
    rw [h0]
    simp [List.range_succ]
  | succ r ih =>
    intro attempt tried h
    unfold create_new_go
    dsimp only
    have h0 : alloc_ok (start + attempt * inc) = false := by
      simpa using h 0 (Nat.zero_le _)
    rw [h0]
    simp only [Bool.false_eq_true, if_false]
    have hih := ih (attempt + 1) (tried ++ [start + attempt * inc])
      (by intro d hd
          have : attempt + 1 + d = attempt + (d + 1) := by omega
          rw [this]; exact h (d + 1) (by omega))
    rw [hih]
    have hfun : (fun d => start + (attempt + 1 + d) * inc) =
        (fun d => start + (attempt + (d + 1)) * inc) := by
      funext d
      ring_nf
    have harith : attempt + 1 + r = attempt + (r + 1) := by omega
    rw [hfun, harith, map_range_succ_shift, map_range_succ_shift]
    simp [List.append_assoc]
    try rw [map_range_succ_shift]
    try simp

/-- C7: create_new tries file sizes starting_file_size +
attempt * file_increment for attempt = 0, 1, ..., resize_attempts,
creating the mapped file anew at each attempted size (the returned trace
lists every size created, each creation preceded by removing the previous
file); when allocation fails at every attempt including the last it fails
with index_size_too_big carrying the last tried size, and on the first
success it records the raw file size and the number of attempts made. -/
theorem C7_create_new_spec (start inc maxA : Nat) (alloc_ok : Nat → Bool) :
    ((∀ a, a ≤ maxA → alloc_ok (start + a * inc) = false) →
      create_new start inc maxA alloc_ok =
        (.error (.index_size_too_big maxA (start + maxA * inc)),
         (List.range (maxA + 1)).map (fun a => start + a * inc))) ∧
    (∀ a, a ≤ maxA → alloc_ok (start + a * inc) = true →
      (∀ a', a' < a → alloc_ok (start + a' * inc) = false) →
      create_new start inc maxA alloc_ok =
        (.ok { raw_size_bytes := start + a * inc, attempts := a + 1 },
         (List.range (a + 1)).map (fun a' => start + a' * inc))) := by
  constructor
  · intro h
    have := create_new_go_failure start inc alloc_ok maxA 0 []
      (by intro d hd; simpa using h d hd)
    unfold create_new
    simpa using this
  · intro a hle hok hpre
    have := create_new_go_success start inc alloc_ok a maxA 0 []
      hle (by simpa using hok) (by intro d' hd'; simpa using hpre d' hd')
    unfold create_new
    simpa using this

/-- Witness for C7: starting size 100, increment 100, 5 attempts allowed,
allocation succeeding from size 300 on: success at the third attempt. -/
theorem C7_create_new_spec_witness :
    create_new 100 100 5 (fun n => decide (n ≥ 300)) =
      (.ok { raw_size_bytes := 300, attempts := 3 }, [100, 200, 300]) :=
  (C7_create_new_spec 100 100 5 (fun n => decide (n ≥ 300))).2 2
    (by decide) (by decide) (by decide)

/-! ## C9 -/

theorem unlink_files_no_fault (files : List String) :
    ∀ fs, unlink_files (fun _ => none) files fs =
      .ok (files.foldl (fun s f => s.erase f) fs) := by
  induction files with
  | nil => intro fs; rfl
  | cons f rest ih =>
    intro fs
    unfold unlink_files unlink_checked
    by_cases hf : fs.contains f
    · simp only [hf, if_true]
      exact ih (fs.erase f)
    · simp only [hf, Bool.false_eq_true, if_false]
      have : fs.erase f = fs := by
        apply List.erase_of_not_mem
        intro hmem
        exact absurd (List.elem_eq_true_of_mem hmem) (by simpa using hf)
      rw [List.foldl_cons, this]
      exact ih fs

theorem unlink_files_benign_fault (fault : String → Option Nat)
    (hf : ∀ f, fault f = none ∨ fault f = some ENOENT)
    (files : List String) :
    ∀ fs, ∃ fs', unlink_files fault files fs = .ok fs' := by
  induction files with
  | nil => intro fs; exact ⟨fs, rfl⟩
  | cons f rest ih =>
    intro fs
    unfold unlink_files unlink_checked
    rcases hf f with h | h
    · rw [h]
      by_cases hc : fs.contains f
      · simp only [hc, if_true]
        exact ih (fs.erase f)
      · simp only [hc, Bool.false_eq_true, if_false]
        simp only [if_true]
        exact ih fs
    · rw [h]
      simp only [if_pos rfl]
      exact ih fs

theorem mem_foldl_erase (l : List String) :
    ∀ (fs : List String) (x : String),
      x ∈ l.foldl (fun s f => s.erase f) fs → x ∈ fs := by
  induction l with
  | nil => intro fs x h; exact h
  | cons f rest ih =>
    intro fs x h
    exact List.mem_of_mem_erase (ih (fs.erase f) x h)

theorem nodup_foldl_erase (l : List String) :
    ∀ fs : List String, fs.Nodup →
      (l.foldl (fun s f => s.erase f) fs).Nodup := by
  induction l with
  | nil => intro fs h; exact h
  | cons f rest ih => intro fs h; exact ih (fs.erase f) (h.erase f)

theorem not_mem_foldl_erase (l : List String) :
    ∀ (fs : List String) (x : String), fs.Nodup → x ∈ l →
      x ∉ l.foldl (fun s f => s.erase f) fs := by
  induction l with
  | nil => intro fs x _ h; exact absurd h (List.not_mem_nil x)
  | cons f rest ih =>
    intro fs x hnd hmem
    rcases List.mem_cons.mp hmem with rfl | hmem
    · by_cases hx : x ∈ rest
      · exact ih (fs.erase x) x (hnd.erase x) hx
      · intro hcontra
        have hin := mem_foldl_erase rest (fs.erase x) x hcontra
        exact hnd.not_mem_erase hin
    · exact ih (fs.erase f) x (hnd.erase f) hmem

/-- C9: unlink removes the meta file, the data file and every adapter
extra file, succeeding whether or not each file exists; running it twice
in a row succeeds both times; and an unlink failure whose errno is not
ENOENT is propagated.  On a duplicate-free filesystem every listed file
is absent afterwards. -/
theorem C9_unlink_spec (basename meta_ext data_ext : String)
    (extra_files fs : List String) (hnd : fs.Nodup) :
    (dataset_unlink (fun _ => none) basename meta_ext data_ext extra_files
        fs =
      .ok (([basename ++ "." ++ meta_ext, basename ++ "." ++ data_ext] ++
        extra_files).foldl (fun s f => s.erase f) fs)) ∧
    (∀ x, x ∈ [basename ++ "." ++ meta_ext, basename ++ "." ++ data_ext] ++
        extra_files →
      x ∉ (([basename ++ "." ++ meta_ext, basename ++ "." ++ data_ext] ++
        extra_files).foldl (fun s f => s.erase f) fs)) ∧
    (∃ fs₁ fs₂,
      dataset_unlink (fun _ => none) basename meta_ext data_ext extra_files
        fs = .ok fs₁ ∧
      dataset_unlink (fun _ => none) basename meta_ext data_ext extra_files
        fs₁ = .ok fs₂) ∧
    (∀ fault, (∀ f, fault f = none ∨ fault f = some ENOENT) →
      ∃ fs', dataset_unlink fault basename meta_ext data_ext extra_files
        fs = .ok fs') ∧
    (∀ fault e, fault (basename ++ "." ++ meta_ext) = some e → e ≠ ENOENT →
      dataset_unlink fault basename meta_ext data_ext extra_files fs =
        .error e) := by
  refine ⟨unlink_files_no_fault _ fs, ?_, ?_, ?_, ?_⟩
  · intro x hx
    exact not_mem_foldl_erase _ fs x hnd hx
  · exact ⟨_, _, unlink_files_no_fault _ fs, unlink_files_no_fault _ _⟩
  · intro fault hben
    exact unlink_files_benign_fault fault hben _ fs
  · intro fault e hfe hne
    unfold dataset_unlink
    simp only [List.cons_append, List.nil_append]
    unfold unlink_files unlink_checked
    rw [hfe]
    simp [hne]

/-- Witness for C9 on a concrete filesystem holding the meta file and an
unrelated file, with the data file and the sidecar already absent. -/
theorem C9_unlink_spec_witness :
    dataset_unlink (fun _ => none) "ds" "meta" "data" ["ds.ridx"]
      ["ds.meta", "other"] =
      .ok ((["ds" ++ "." ++ "meta", "ds" ++ "." ++ "data"] ++
        ["ds.ridx"]).foldl (fun s f => s.erase f) ["ds.meta", "other"]) :=
  (C9_unlink_spec "ds" "meta" "data" ["ds.ridx"] ["ds.meta", "other"]
    (by decide)).1

/-! ## C3 -/

/-- C3 (failing input): opening an existing dataset in RWP mode with a
data file and num_slots = 0 reaches the unguarded modulo by zero in
compute_slot_size, in the member-initializer list, before any
invalid_num_slots validation can run. -/
theorem C3_open_num_slots_zero_division_by_zero :
    open_dataset
      { mode := { write := true, trunc := false },
        flags := { rwp := true, no_data := false, allow_unsorted := true,
                   no_data_check := false },
        num_slots := 0, meta_szof := 16, adapter_check := [1, 2],
        file_names := ["x.meta", "x.data"],
        files := { meta_size := 192, data_size := 128,
                   stored_base := fill_base_data 2 64,
                   stored_check := [1, 2],
                   rows := [{ meta := { uid := 1, data_size := 64 },
                              data_offset := 0,
                              clean_bit := CLEAN_BIT_MAGIC },
                            { meta := { uid := 2, data_size := 64 },
                              data_offset := 64,
                              clean_bit := CLEAN_BIT_MAGIC }] },
        storage_sorted := true } = .ub_div_by_zero := by
  rfl

/-! ## C8 -/

theorem fd_extensions_equal_of_no_dup (l : List String)
    (h : any_duplicate l = false) : fd_extensions_equal l = false := by
  cases l with
  | nil => rfl
  | cons m rest =>
    cases rest with
    | nil => rfl
    | cons d r =>
      unfold fd_extensions_equal
      unfold any_duplicate at h
      rw [Bool.or_eq_false_iff] at h
      obtain ⟨h1, -⟩ := h
      simp only [List.contains_cons, Bool.or_eq_false_iff] at h1
      exact h1.1

theorem open_dataset_checks_ok_fields (a : open_args)
    (can_rwp allow_unsorted : Bool)
    (rsz msize dsize header_size max_elements slot_size : Nat)
    (new_ds data_check : Bool) (ds : dataset_state)
    (h : open_dataset_checks a can_rwp allow_unsorted rsz msize dsize
      header_size max_elements slot_size new_ds data_check = .ok ds) :
    ds.mapped = ! can_rwp ∧ ds.spatial_initialized = ! can_rwp ∧
      ds.can_rwp = can_rwp := by
  unfold open_dataset_checks at h
  iterate 12 (all_goals ((try dsimp only at h); (try split at h)))
  all_goals
    first
      | (subst h
         exact ⟨rfl, rfl, rfl⟩)
      | (rw [open_outcome.ok.injEq] at h
         subst h
         exact ⟨rfl, rfl, rfl⟩)
      | simp at h

set_option maxHeartbeats 1600000 in
/-- C8: whenever the open constructor runs with the RWP flag or a
truncating mode (both give _can_rwp), a successfully constructed dataset
has no memory mapping and no materialized spatial index; and when the
ALLOW_UNSORTED condition (the ALLOW_UNSORTED flag or the NO_DATA flag)
does not hold, the open never succeeds, failing with unsorted_data on
the path where no earlier validation error fires. -/
theorem C8_rwp_open_spec (a : open_args)
    (h_rwp : (a.flags.rwp || a.mode.trunc) = true) :
    (∀ ds, open_dataset a = .ok ds →
      ds.mapped = false ∧ ds.spatial_initialized = false ∧
      ds.can_rwp = true) ∧
    ((a.flags.allow_unsorted || a.flags.no_data) = false →
      (∀ ds, open_dataset a ≠ .ok ds) ∧
      ((a.mode.trunc = true → a.mode.write = true) →
       a.adapter_check.length ≤ max_meta_check_size →
       a.num_slots ≠ 0 →
       (if a.mode.trunc then 0 else a.files.data_size) % a.num_slots = 0 →
       any_duplicate a.file_names = false →
       open_dataset a = .err .unsorted_data)) := by
  have hcr : od_can_rwp a = true := h_rwp
  constructor
  · intro ds h
    unfold open_dataset at h
    by_cases c1 : (a.mode.trunc = true ∧ ¬ a.mode.write = true)
    · rw [if_pos c1] at h; simp at h
    rw [if_neg c1] at h
    by_cases c2 : (¬ od_can_rwp a = true ∧ od_msize a = 0)
    · rw [if_pos c2] at h; simp at h
    rw [if_neg c2] at h
    by_cases c3 : (¬ od_can_rwp a = true ∧ ¬ a.flags.no_data = true ∧ od_dsize a = 0)
    · rw [if_pos c3] at h; simp at h
    rw [if_neg c3] at h
    by_cases c4 : (fd_extensions_equal a.file_names = true)
    · rw [if_pos c4] at h; simp at h
    rw [if_neg c4] at h
    by_cases c5 : (¬ od_can_rwp a = true ∧ a.adapter_check.length > max_meta_check_size)
    · rw [if_pos c5] at h; simp at h
    rw [if_neg c5] at h
    by_cases c6 : (¬ a.flags.no_data = true ∧ a.num_slots = 0)
    · rw [if_pos c6] at h; simp at h
    rw [if_neg c6] at h
    by_cases c7 : (¬ a.flags.no_data = true ∧ od_dsize a % a.num_slots ≠ 0)
    · rw [if_pos c7] at h; simp at h
    rw [if_neg c7] at h
    by_cases c8 : (od_can_rwp a = true ∧ a.adapter_check.length > max_meta_check_size)
    · rw [if_pos c8] at h; simp at h
    rw [if_neg c8] at h
    by_cases c9 : (any_duplicate a.file_names = true)
    · rw [if_pos c9] at h; simp at h
    rw [if_neg c9] at h
    by_cases c10 : (od_can_rwp a = true ∧ ¬ od_allow_unsorted a = true)
    · rw [if_pos c10] at h; simp at h
    rw [if_neg c10] at h
    by_cases c11 : (a.flags.no_data = true ∧ a.num_slots ≠ 0)
    · rw [if_pos c11] at h; simp at h
    rw [if_neg c11] at h
    by_cases c12 : (¬ a.flags.no_data = true ∧ a.mode.trunc = true ∧ a.num_slots ≠ 1)
    · rw [if_pos c12] at h; simp at h
    rw [if_neg c12] at h
    have hf := open_dataset_checks_ok_fields _ _ _ _ _ _
      _ _ _ _ _ _ h
    rw [hcr] at hf
    simpa using hf
  · intro h_allow
    have hau : a.flags.allow_unsorted = false := by
      cases hx : a.flags.allow_unsorted
      · rfl
      · rw [hx] at h_allow; simp at h_allow
    have hnd : a.flags.no_data = false := by
      cases hx : a.flags.no_data
      · rfl
      · rw [hx] at h_allow; simp at h_allow
    have hal : od_allow_unsorted a = false := by
      unfold od_allow_unsorted
      rw [hau, hnd]
      rfl
    constructor
    · intro ds h
      unfold open_dataset at h
      by_cases c1 : (a.mode.trunc = true ∧ ¬ a.mode.write = true)
      · rw [if_pos c1] at h; simp at h
      rw [if_neg c1] at h
      by_cases c2 : (¬ od_can_rwp a = true ∧ od_msize a = 0)
      · rw [if_pos c2] at h; simp at h
      rw [if_neg c2] at h
      by_cases c3 : (¬ od_can_rwp a = true ∧ ¬ a.flags.no_data = true ∧ od_dsize a = 0)
      · rw [if_pos c3] at h; simp at h
      rw [if_neg c3] at h
      by_cases c4 : (fd_extensions_equal a.file_names = true)
      · rw [if_pos c4] at h; simp at h
      rw [if_neg c4] at h
      by_cases c5 : (¬ od_can_rwp a = true ∧ a.adapter_check.length > max_meta_check_size)
      · rw [if_pos c5] at h; simp at h
      rw [if_neg c5] at h
      by_cases c6 : (¬ a.flags.no_data = true ∧ a.num_slots = 0)
      · rw [if_pos c6] at h; simp at h
      rw [if_neg c6] at h
      by_cases c7 : (¬ a.flags.no_data = true ∧ od_dsize a % a.num_slots ≠ 0)
      · rw [if_pos c7] at h; simp at h
      rw [if_neg c7] at h
      by_cases c8 : (od_can_rwp a = true ∧ a.adapter_check.length > max_meta_check_size)
      · rw [if_pos c8] at h; simp at h
      rw [if_neg c8] at h
      by_cases c9 : (any_duplicate a.file_names = true)
      · rw [if_pos c9] at h; simp at h
      rw [if_neg c9] at h
      rw [if_pos ⟨hcr, by rw [hal]; simp⟩] at h
      simp at h
    · intro h_cw h_chk h_ns h_mod h_dup
      unfold open_dataset
      rw [if_neg (fun hx => hx.2 (h_cw hx.1))]
      rw [if_neg (fun hx => hx.1 hcr)]
      rw [if_neg (fun hx => hx.1 hcr)]
      rw [if_neg (show ¬ fd_extensions_equal a.file_names = true by
        rw [fd_extensions_equal_of_no_dup _ h_dup]; simp)]
      rw [if_neg (fun hx => hx.1 hcr)]
      rw [if_neg (fun hx => h_ns hx.2)]
      rw [if_neg (fun hx => hx.2 (show od_dsize a % a.num_slots = 0
        from h_mod))]
      rw [if_neg (show ¬ (od_can_rwp a = true ∧
          a.adapter_check.length > max_meta_check_size) by
        intro hx; omega)]
      rw [if_neg (by simp [h_dup])]
      rw [if_pos ⟨hcr, by simp [hal]⟩]

/-- Witness for C8 on a concrete RWP open without ALLOW_UNSORTED: the
constructor fails with unsorted_data. -/
theorem C8_rwp_open_spec_witness :
    open_dataset
      { mode := { write := true, trunc := false },
        flags := { rwp := true, no_data := false, allow_unsorted := false,
                   no_data_check := false },
        num_slots := 1, meta_szof := 16, adapter_check := [7],
        file_names := ["y.meta", "y.data"],
        files := { meta_size := 128, data_size := 64,
                   stored_base := fill_base_data 1 64,
                   stored_check := [7],
                   rows := [{ meta := { uid := 1, data_size := 33 },
                              data_offset := 0,
                              clean_bit := CLEAN_BIT_MAGIC }] },
        storage_sorted := true } = .err .unsorted_data :=
  ((C8_rwp_open_spec
    { mode := { write := true, trunc := false },
      flags := { rwp := true, no_data := false, allow_unsorted := false,
                 no_data_check := false },
      num_slots := 1, meta_szof := 16, adapter_check := [7],
      file_names := ["y.meta", "y.data"],
      files := { meta_size := 128, data_size := 64,
                 stored_base := fill_base_data 1 64,
                 stored_check := [7],
                 rows := [{ meta := { uid := 1, data_size := 33 },
                            data_offset := 0,
                            clean_bit := CLEAN_BIT_MAGIC }] },
      storage_sorted := true } rfl).2 rfl).2 (fun h => rfl) (by decide)
    (by decide) (by decide) (by decide)

/-! ## C2 -/

theorem insert_sorted_length (x : Nat × Nat) (l : List (Nat × Nat)) :
    (insert_sorted x l).length = l.length + 1 := by
  induction l with
  | nil => rfl
  | cons y ys ih =>
    unfold insert_sorted
    split
    · simp [ih]
    · simp

theorem sort_pairs_length (l : List (Nat × Nat)) :
    (sort_pairs l).length = l.length := by
  induction l with
  | nil => rfl
  | cons x xs ih =>
    unfold sort_pairs
    rw [insert_sorted_length, ih]
    rfl

theorem check_offsets_ok_iff (ss ns rs : Nat) (l : List (Nat × Nat)) :
    ∀ cur, check_offsets ss ns rs cur l = .ok () ↔
      (gapless_from cur l = true ∧ end_offset cur l = ss ∧
        ss * ns = rs) := by
  induction l with
  | nil =>
    intro cur
    unfold check_offsets gapless_from end_offset
    constructor
    · intro h
      split_ifs at h with h1 h2
      · push_neg at h1
        push_neg at h2
        subst h1
        exact ⟨rfl, rfl, h2⟩
    · rintro ⟨-, h2, h3⟩
      subst h2
      rw [if_neg (by omega), if_neg (by rw [h3]; omega)]
  | cons hd tl ih =>
    intro cur
    obtain ⟨off, sz⟩ := hd
    unfold check_offsets gapless_from
    constructor
    · intro h
      split_ifs at h with h1
      push_neg at h1
      subst h1
      obtain ⟨hg, he, hm⟩ := (ih (cur + align64 sz)).mp h
      refine ⟨?_, ?_, hm⟩
      · simp [hg]
      · exact he
    · rintro ⟨hg, he, hm⟩
      rw [Bool.and_eq_true] at hg
      obtain ⟨hg1, hg2⟩ := hg
      have hoff : off = cur := by simpa using hg1
      rw [if_neg (by omega)]
      exact (ih (cur + align64 sz)).mpr ⟨hg2, he, hm⟩

theorem check_offsets_error_shape (ss ns rs : Nat) (l : List (Nat × Nat)) :
    ∀ cur e, check_offsets ss ns rs cur l = .error e →
      ∃ x y, e = .inconsistent_data x y := by
  induction l with
  | nil =>
    intro cur e h
    unfold check_offsets at h
    split_ifs at h
    · exact ⟨ss, cur, by simpa using h.symm⟩
    · exact ⟨rs, cur * ns, by simpa using h.symm⟩
  | cons hd tl ih =>
    intro cur e h
    obtain ⟨off, sz⟩ := hd
    unfold check_offsets at h
    split_ifs at h
    · exact ⟨cur, off, by simpa using h.symm⟩
    · exact ih (cur + align64 sz) e h

theorem get_data_info_mem_map (rows : List file_metadata) :
    get_data_info_mem rows rows.length =
      rows.map (fun r => (r.data_offset, r.meta.data_size)) := by
  unfold get_data_info_mem
  apply List.ext_getElem
  · simp
  · intro i h1 h2
    simp only [List.getElem_map, List.getElem_range]
    rw [List.get?_eq_getElem?, List.getElem?_eq_getElem
      (by simpa using h1)]

theorem assert_base_data_self (b : meta_base_structure) :
    assert_base_data b b = .ok () := by
  unfold assert_base_data
  rw [first_mismatch_self]

theorem assert_meta_check_data_self (c : List Nat) :
    assert_meta_check_data c c = .ok () := by
  unfold assert_meta_check_data
  rw [first_mismatch_self]

/-- C2: opening an existing mapped dataset with neither NO_DATA_CHECK
nor NO_DATA and at least one element collects every row's
(data_offset, data_size) pair, sorts the pairs by offset, and succeeds
exactly when the sorted offsets are gapless starting at 0, the final
offset plus aligned size equals slot_size, and slot_size times num_slots
equals the data file size; any violation fails with inconsistent_data
carrying an expected and an actual value. -/
theorem C2_open_data_check_spec (a : open_args)
    (h_rwp : a.flags.rwp = false) (h_trunc : a.mode.trunc = false)
    (h_ndc : a.flags.no_data_check = false)
    (h_nd : a.flags.no_data = false)
    (h_sorted : a.storage_sorted = true)
    (h_chk : a.adapter_check.length ≤ max_meta_check_size)
    (h_slots : a.num_slots ≠ 0)
    (h_mod : a.files.data_size % a.num_slots = 0)
    (h_dsz : a.files.data_size ≠ 0)
    (h_dup : any_duplicate a.file_names = false)
    (h_base : a.files.stored_base =
      fill_base_data a.adapter_check.length (align64 a.meta_szof))
    (h_check : a.files.stored_check = a.adapter_check)
    (h_msize : a.files.meta_size =
      compute_meta_file_header_size a.adapter_check.length +
        align64 a.meta_szof * a.files.rows.length)
    (h_nonempty : a.files.rows.length ≠ 0) :
    ((∃ ds, open_dataset a = .ok ds) ↔
      (gapless_from 0 (sort_pairs (a.files.rows.map
          (fun r => (r.data_offset, r.meta.data_size)))) = true ∧
        end_offset 0 (sort_pairs (a.files.rows.map
          (fun r => (r.data_offset, r.meta.data_size)))) =
          a.files.data_size / a.num_slots ∧
        (a.files.data_size / a.num_slots) * a.num_slots =
          a.files.data_size)) ∧
    (¬ (gapless_from 0 (sort_pairs (a.files.rows.map
          (fun r => (r.data_offset, r.meta.data_size)))) = true ∧
        end_offset 0 (sort_pairs (a.files.rows.map
          (fun r => (r.data_offset, r.meta.data_size)))) =
          a.files.data_size / a.num_slots ∧
        (a.files.data_size / a.num_slots) * a.num_slots =
          a.files.data_size) →
      ∃ x y, open_dataset a = .err (.inconsistent_data x y)) := by
  have hcr : od_can_rwp a = false := by
    unfold od_can_rwp
    rw [h_rwp, h_trunc]
    rfl
  have hms : od_msize a = a.files.meta_size := by
    unfold od_msize
    rw [h_trunc]
    rfl
  have hds : od_dsize a = a.files.data_size := by
    unfold od_dsize
    rw [h_trunc]
    rfl
  have hmsnz : a.files.meta_size ≠ 0 := by
    rw [h_msize]
    have := align64_pos (a.adapter_check.length + meta_base_structure_size)
    unfold compute_meta_file_header_size at *
    omega
  have hme : od_max_elements a = a.files.rows.length := by
    unfold od_max_elements od_header_size
    rw [hcr, hms, h_msize]
    simp only [Bool.false_eq_true, if_false]
    rw [Nat.add_sub_cancel_left, Nat.mul_div_cancel_left _
      (align64_pos a.meta_szof)]
  have hss : od_slot_size a = a.files.data_size / a.num_slots := by
    unfold od_slot_size
    rw [h_nd, hds]
    rfl
  -- reduce open_dataset to the data cross-check
  have hred : open_dataset a =
      match check_offsets (a.files.data_size / a.num_slots) a.num_slots
          a.files.data_size 0
          (sort_pairs (a.files.rows.map
            (fun r => (r.data_offset, r.meta.data_size)))) with
      | .error e => open_outcome.err e
      | .ok _ => open_outcome.ok
          { can_rwp := false, allow_unsorted := a.flags.allow_unsorted,
            no_data := false, mapped := true, spatial_initialized := true,
            num_slots := a.num_slots,
            slot_size := a.files.data_size / a.num_slots,
            max_elements := a.files.rows.length, meta_szof := a.meta_szof,
            header_size := od_header_size a, rows := a.files.rows,
            data_file_size := a.files.data_size } := by
    have hmod0 : (a.files.meta_size - od_header_size a) %
        align64 a.meta_szof = 0 := by
      rw [h_msize]
      unfold od_header_size
      rw [Nat.add_sub_cancel_left, Nat.mul_mod_right]
    have hlen0 : 0 < a.files.rows.length := Nat.pos_of_ne_zero h_nonempty
    unfold open_dataset
    rw [if_neg (show ¬ (a.mode.trunc = true ∧ ¬ a.mode.write = true) by
      rw [h_trunc]; simp)]
    rw [if_neg (show ¬ (¬ od_can_rwp a = true ∧ od_msize a = 0) by
      rw [hms]; intro hx; exact hmsnz hx.2)]
    rw [if_neg (show ¬ (¬ od_can_rwp a = true ∧ ¬ a.flags.no_data = true ∧
        od_dsize a = 0) by
      rw [hds]; intro hx; exact h_dsz hx.2.2)]
    rw [if_neg (show ¬ fd_extensions_equal a.file_names = true by
      rw [fd_extensions_equal_of_no_dup _ h_dup]; simp)]
    rw [if_neg (show ¬ (¬ od_can_rwp a = true ∧
        a.adapter_check.length > max_meta_check_size) by
      intro hx; omega)]
    rw [if_neg (show ¬ (¬ a.flags.no_data = true ∧ a.num_slots = 0) by
      intro hx; exact h_slots hx.2)]
    rw [if_neg (show ¬ (¬ a.flags.no_data = true ∧
        od_dsize a % a.num_slots ≠ 0) by
      rw [hds]; intro hx; exact hx.2 h_mod)]
    rw [if_neg (show ¬ (od_can_rwp a = true ∧
        a.adapter_check.length > max_meta_check_size) by
      rw [hcr]; simp)]
    rw [if_neg (show ¬ any_duplicate a.file_names = true by
      rw [h_dup]; simp)]
    rw [if_neg (show ¬ (od_can_rwp a = true ∧
        ¬ od_allow_unsorted a = true) by
      rw [hcr]; simp)]
    rw [if_neg (show ¬ (a.flags.no_data = true ∧ a.num_slots ≠ 0) by
      rw [h_nd]; simp)]
    rw [if_neg (show ¬ (¬ a.flags.no_data = true ∧ a.mode.trunc = true ∧
        a.num_slots ≠ 1) by
      rw [h_trunc]; simp)]
    unfold open_dataset_checks
    rw [h_base, h_check]
    simp only [hcr, hms, hds, hme, hss, h_trunc, h_nd, h_ndc, h_sorted,
      assert_base_data_self, assert_meta_check_data_self, hmod0,
      od_allow_unsorted, Bool.or_false, Bool.not_false,
      Bool.false_eq_true, if_false, if_true, not_false_eq_true,
      not_true_eq_false, false_and, and_false, true_and, and_true,
      decide_True, decide_False, ne_eq, gt_iff_lt, hlen0, if_pos,
      get_data_info_mem_map]
    unfold data_check_phase
    rw [if_neg (show ¬ (sort_pairs (a.files.rows.map
        (fun r => (r.data_offset, r.meta.data_size)))).length ≠
        a.files.rows.length by
      rw [sort_pairs_length, List.length_map]; simp)]
    rfl
  constructor
  · constructor
    · rintro ⟨ds, hds'⟩
      rw [hred] at hds'
      cases hco : check_offsets (a.files.data_size / a.num_slots)
          a.num_slots a.files.data_size 0
          (sort_pairs (a.files.rows.map
            (fun r => (r.data_offset, r.meta.data_size)))) with
      | error e => rw [hco] at hds'; simp at hds'
      | ok u =>
        obtain ⟨⟩ := u
        exact (check_offsets_ok_iff _ _ _ _ 0).mp hco
    · intro hcond
      apply Exists.intro
      rw [hred]
      rw [(check_offsets_ok_iff _ _ _ _ 0).mpr hcond]
  · intro hcond
    cases hco : check_offsets (a.files.data_size / a.num_slots)
        a.num_slots a.files.data_size 0
        (sort_pairs (a.files.rows.map
          (fun r => (r.data_offset, r.meta.data_size)))) with
    | error e =>
      obtain ⟨x, y, rfl⟩ := check_offsets_error_shape _ _ _ _ 0 e hco
      refine ⟨x, y, ?_⟩
      rw [hred, hco]
    | ok u =>
      obtain ⟨⟩ := u
      exact absurd ((check_offsets_ok_iff _ _ _ _ 0).mp hco) hcond

/-- Witness for C2: a consistent one-row dataset (data size 33 at offset
0, aligned to the 64-byte slot) opens successfully. -/
theorem C2_open_data_check_spec_witness :
    ∃ ds, open_dataset
      { mode := { write := false, trunc := false },
        flags := { rwp := false, no_data := false, allow_unsorted := true,
                   no_data_check := false },
        num_slots := 1, meta_szof := 16, adapter_check := [7],
        file_names := ["z.meta", "z.data"],
        files := { meta_size := 128, data_size := 64,
                   stored_base := fill_base_data 1 64,
                   stored_check := [7],
                   rows := [{ meta := { uid := 1, data_size := 33 },
                              data_offset := 0,
                              clean_bit := CLEAN_BIT_MAGIC }] },
        storage_sorted := true } = .ok ds :=
  (C2_open_data_check_spec
    { mode := { write := false, trunc := false },
      flags := { rwp := false, no_data := false, allow_unsorted := true,
                 no_data_check := false },
      num_slots := 1, meta_szof := 16, adapter_check := [7],
      file_names := ["z.meta", "z.data"],
      files := { meta_size := 128, data_size := 64,
                 stored_base := fill_base_data 1 64,
                 stored_check := [7],
                 rows := [{ meta := { uid := 1, data_size := 33 },
                            data_offset := 0,
                            clean_bit := CLEAN_BIT_MAGIC }] },
      storage_sorted := true }
    rfl rfl rfl rfl rfl (by decide) (by decide) (by decide) (by decide)
    (by decide) rfl rfl (by decide) (by decide)).1.mpr (by decide)

end S1O
